import Mathlib

/-!
Verification of the SUPPER client-side scripting layer.

Shallow embedding of the admin widgets of the repository:
the day-of-month calendar picker (calendrier_widget.js), the date-input
validation and day-status AJAX helper (calendrier-widget.js), the
role-to-permission auto-fill (permissions script), and the cascading
region/department selects (region_departement.js).

DOM state is modelled explicitly: the calendar widget state is the closure
variables of initCalendrier (selectedDays, the hidden field value, the count
display); the permission checkboxes are a map from permission id to checked
flag; the department select is its option list plus disabled flag.
JavaScript values stored in the selected-days array are modelled by JsValue
(JSON numbers are modelled as integers, which covers every value the
repository itself ever writes). JSON.parse and fetch are browser built-ins:
they enter the model as the outcome they produce (a parse result, a fetch
result), and the repository code consuming those outcomes is translated
function by function.
-/

/-- JavaScript values as they appear in this code base: JSON scalars,
arrays, objects, plus undefined as produced by a missing-property access. -/
inductive JsValue where
  | num (n : Int)
  | str (s : String)
  | bool (b : Bool)
  | null
  | undefined
  | arr (elems : List JsValue)
  | obj (fields : List (String × JsValue))

/-- JavaScript truthiness of a value (as used in `if (x)` / `if (!x)`). -/
def truthy : JsValue → Bool
  | .num n => n ≠ 0
  | .str s => s ≠ ""
  | .bool b => b
  | .null => false
  | .undefined => false
  | .arr _ => true
  | .obj _ => true

/-- Property access `v[k]`: field of an object, undefined otherwise
(the code only dereferences values it has already checked to be truthy). -/
def jsField (v : JsValue) (k : String) : JsValue :=
  match v with
  | .obj fields => (List.lookup k fields).getD .undefined
  | _ => .undefined

/-! ## Day-of-month calendar picker (calendrier_widget.js, initCalendrier)

The widget closure holds `currentMonth`, `currentYear`, `selectedDays`
(a JavaScript array), the hidden input and a count display. The hidden
field always holds `JSON.stringify` of an integer array, so its parsed
content is recorded directly as a `List Int`. -/

/-- Closure state of one initCalendrier widget instance. `hiddenValue` is
the array serialized into the hidden input (`JSON.parse` of the field's
text); `count` is the `_count` element's text. -/
structure CalState where
  currentMonth : Nat
  currentYear : Nat
  selectedDays : List JsValue
  hiddenValue : List Int
  count : Nat

/-- The numbers of a JavaScript array, in order: the values `v` with
`typeof v === 'number'`. -/
def numsOf (xs : List JsValue) : List Int :=
  xs.filterMap fun v => match v with
    | .num n => some n
    | _ => none

/-- Strict equality `v === dayNum` against a number. -/
def isTheNum (d : Int) : JsValue → Bool
  | .num n => n == d
  | _ => false

/-- `selectedDays.indexOf(dayNum) > -1`: some element is `=== dayNum`. -/
def containsNum (d : Int) (xs : List JsValue) : Bool :=
  xs.any (isTheNum d)

/-- `selectedDays.splice(index, 1)` at `index = indexOf(dayNum)`: remove the
first element strictly equal to the number `d`. -/
def eraseNum (d : Int) : List JsValue → List JsValue
  | [] => []
  | x :: xs => if isTheNum d x then xs else x :: eraseNum d xs

/-- The range test of updateHiddenInput's filter. -/
def dayInRange (n : Int) : Bool :=
  1 ≤ n && n ≤ 31

/-- The cleaning pass of updateHiddenInput:
`selectedDays.filter(day => typeof day === 'number' && day >= 1 && day <= 31)
             .sort((a, b) => a - b)`. -/
def cleanDays (xs : List JsValue) : List Int :=
  List.insertionSort (· ≤ ·) ((numsOf xs).filter dayInRange)

/-- updateHiddenInput: clean `selectedDays`, store the result back into
`selectedDays`, serialize it into the hidden input, refresh the count. -/
def updateHiddenInput (s : CalState) : CalState :=
  let cleaned := cleanDays s.selectedDays
  { s with
    selectedDays := cleaned.map JsValue.num
    hiddenValue := cleaned
    count := cleaned.length }

/-- window.toggleDay: ignore a foreign widget id; ignore an out-of-range
day; otherwise remove the day if present (indexOf/splice), else push it,
then updateHiddenInput. (generateCalendar only re-renders and is omitted.) -/
def toggleDay (widgetId : String) (day : Int) (wId : String) (s : CalState) : CalState :=
  if wId ≠ widgetId then s
  else if day < 1 ∨ 31 < day then s
  else
    updateHiddenInput { s with
      selectedDays :=
        if containsNum day s.selectedDays then eraseNum day s.selectedDays
        else s.selectedDays ++ [JsValue.num day] }

/-- Leap-year rule of the proleptic Gregorian calendar used by JavaScript
Date. -/
def isLeapYear (y : Nat) : Bool :=
  (y % 4 == 0 && y % 100 != 0) || y % 400 == 0

/-- `new Date(year, month, 0).getDate()`: the number of days of `month`
(1-based) in `year`. -/
def daysInMonth (year month : Nat) : Nat :=
  if month = 2 then (if isLeapYear year then 29 else 28)
  else if month = 4 ∨ month = 6 ∨ month = 9 ∨ month = 11 then 30
  else 31

/-- Month offsets of Sakamoto's weekday formula. -/
def sakamotoOffsets : List Nat := [0, 3, 2, 5, 0, 3, 5, 1, 4, 6, 2, 4]

/-- `new Date(year, month - 1, day).getDay()`: weekday of a Gregorian date,
0 = Sunday … 6 = Saturday (Sakamoto's formula). -/
def dayOfWeek (year month day : Nat) : Nat :=
  let y := if month < 3 then year - 1 else year
  (y + y / 4 - y / 100 + y / 400 + sakamotoOffsets.getD (month - 1) 0 + day) % 7

/-- ISO 8601 weekday: Monday = 1 … Sunday = 7. -/
def isoWeekday (year month day : Nat) : Nat :=
  let w := dayOfWeek year month day
  if w = 0 then 7 else w

/-- The full day list `1 .. daysInMonth` built by selectAllDays. -/
def allDaysList (year month : Nat) : List Int :=
  (List.range (daysInMonth year month)).map fun (k : Nat) => (k : Int) + 1

/-- The day list built by selectWeekdays: days whose `getDay()` is 1..5
(Monday to Friday). -/
def weekdaysList (year month : Nat) : List Int :=
  (allDaysList year month).filter fun d =>
    1 ≤ dayOfWeek year month d.toNat && dayOfWeek year month d.toNat ≤ 5

/-- window.selectAllDays: ignore a foreign widget id; require a month and
year (JavaScript falsiness, i.e. nonzero); rebuild `selectedDays` as
`1 .. daysInMonth`, then updateHiddenInput. -/
def selectAllDays (widgetId wId : String) (s : CalState) : CalState :=
  if wId ≠ widgetId then s
  else if s.currentMonth = 0 ∨ s.currentYear = 0 then s
  else
    updateHiddenInput { s with
      selectedDays := (allDaysList s.currentYear s.currentMonth).map JsValue.num }

/-- window.clearAllDays: ignore a foreign widget id; empty `selectedDays`,
then updateHiddenInput. -/
def clearAllDays (widgetId wId : String) (s : CalState) : CalState :=
  if wId ≠ widgetId then s
  else updateHiddenInput { s with selectedDays := [] }

/-- window.selectWeekdays: ignore a foreign widget id; require a month and
year; rebuild `selectedDays` as the Monday-to-Friday days of the month,
then updateHiddenInput. -/
def selectWeekdays (widgetId wId : String) (s : CalState) : CalState :=
  if wId ≠ widgetId then s
  else if s.currentMonth = 0 ∨ s.currentYear = 0 then s
  else
    updateHiddenInput { s with
      selectedDays := (weekdaysList s.currentYear s.currentMonth).map JsValue.num }

/-- loadSelectedDays: an empty hidden field gives the empty selection; a
JSON.parse failure is caught (warning logged) and gives the empty
selection; a parsed non-array gives the empty selection; a parsed array is
kept verbatim. `fieldEmpty` is the `!value || value === ''` test; `parsed`
is the JSON.parse outcome of the field text. -/
def loadSelectedDays (fieldEmpty : Bool) (parsed : Except Unit JsValue) : List JsValue :=
  if fieldEmpty then []
  else
    match parsed with
    | .error _ => []
    | .ok v =>
      match v with
      | .arr xs => xs
      | _ => []

/-! ## Date-input validation and day-status helper (calendrier-widget.js)

Calendar dates are `YYYY-MM-DD` strings; the code builds and compares them
as strings. `DateTriple` plus `isoOf` models the construction of those
strings; the comparisons stay string comparisons as in the source. -/

/-- A calendar date, used to build the ISO `YYYY-MM-DD` strings the code
compares. Years of interest are four-digit. -/
structure DateTriple where
  year : Nat
  month : Nat
  day : Nat
deriving DecidableEq

/-- Two-digit zero padding of a month or day number. -/
def pad2 (n : Nat) : String :=
  if n < 10 then "0" ++ toString n else toString n

/-- `toISOString().split('T')[0]` for a four-digit-year date. -/
def isoOf (t : DateTriple) : String :=
  toString t.year ++ "-" ++ pad2 t.month ++ "-" ++ pad2 t.day

/-- `pastLimit.setFullYear(pastLimit.getFullYear() - 1)`: same month and
day one year earlier; a day that does not exist in the target year
(Feb 29) rolls over into the next month, as JavaScript Date does. -/
def oneYearBefore (t : DateTriple) : DateTriple :=
  if t.day ≤ daysInMonth (t.year - 1) t.month then
    ⟨t.year - 1, t.month, t.day⟩
  else
    ⟨t.year - 1, t.month + 1, t.day - daysInMonth (t.year - 1) t.month⟩

/-- The calendar day before `t` (used to state "one year and one day in
the past"). -/
def dayBefore (t : DateTriple) : DateTriple :=
  if 1 < t.day then ⟨t.year, t.month, t.day - 1⟩
  else if 1 < t.month then ⟨t.year, t.month - 1, daysInMonth t.year (t.month - 1)⟩
  else ⟨t.year - 1, 12, 31⟩

/-- Outcome of validateDate: which branch ran. `empty` is the early return
on an empty value; the two invalid outcomes add the `is-invalid` class and
show an inline message; `valid` adds `is-valid` and clears the message. -/
inductive DateValidity where
  | empty
  | invalidFuture
  | invalidTooOld
  | valid
deriving DecidableEq

/-- Lexicographic comparison of character lists, as JavaScript compares
strings code unit by code unit. -/
def charListLt : List Char → List Char → Bool
  | [], [] => false
  | [], _ :: _ => true
  | _ :: _, [] => false
  | a :: as, b :: bs => if a < b then true else if b < a then false else charListLt as bs

/-- The JavaScript relational comparison of two strings. -/
def jsStringLt (a b : String) : Bool :=
  charListLt a.data b.data

/-- validateDate(input): compare the field text against today's ISO string
and against the one-year-past limit string, both lexicographically as the
source does. -/
def validateDate (value todayStr pastLimitStr : String) : DateValidity :=
  if value = "" then .empty
  else if jsStringLt todayStr value then .invalidFuture
  else if jsStringLt value pastLimitStr then .invalidTooOld
  else .valid

/-- The inline message created by showDateError for each invalid outcome. -/
def dateErrorMessage : DateValidity → Option String
  | .invalidFuture => some "La date ne peut pas être dans le futur"
  | .invalidTooOld => some "Date trop ancienne (plus d\x27un an)"
  | _ => none

/-- Whether validateDate marked the field `is-invalid`. -/
def isInvalidFlag : DateValidity → Bool
  | .invalidFuture => true
  | .invalidTooOld => true
  | _ => false

/-- The change-event handler calls verifierStatutJour(input), which early
returns only on an empty value or a missing form and otherwise always
calls checkDayStatusAPI (issuing the network request). Validation is not
consulted. -/
def changeHandlerIssuesFetch (value : String) (formPresent : Bool) : Bool :=
  if value = "" then false
  else if formPresent = false then false
  else true

/-- Outcome of `fetch` for the day-status request: a network rejection, or
a response with its `ok` flag and the result of `response.json()` (`none`
when the body is not JSON). -/
inductive FetchResult where
  | networkError
  | response (ok : Bool) (body : Option JsValue)

/-- The degraded-mode default object returned by the catch handler of
checkDayStatusAPI. -/
def degradedDefault : JsValue :=
  .obj [("inventaire_ouvert", .bool true),
        ("recette_ouvert", .bool true),
        ("mode_degrade", .bool true)]

/-- checkDayStatusAPI: a non-ok response throws, a non-JSON body rejects,
a falsy `success` throws; every throw lands in the final catch, which logs
a warning and resolves with the degraded default. A truthy `success`
resolves with `data.data`. -/
def checkDayStatusAPI (r : FetchResult) : JsValue :=
  match r with
  | .networkError => degradedDefault
  | .response ok body =>
    if ok = false then degradedDefault
    else
      match body with
      | none => degradedDefault
      | some data =>
        if truthy (jsField data "success") then jsField data "data"
        else degradedDefault

/-- The failure cases of the claim: network error, non-OK HTTP response,
or a body whose `success` is not truthy (a non-JSON body rejects
`response.json()` and is a network-level failure as well). -/
def fetchFails : FetchResult → Bool
  | .networkError => true
  | .response ok none => !ok || true
  | .response ok (some data) => !ok || !truthy (jsField data "success")

/-- afficherStatutJour: early return on a falsy status, otherwise render a
banner whose text and class are determined by the two open flags. The
result is `(statusText, statusClass)`. -/
def afficherStatutJour (statusData : JsValue) : Option (String × String) :=
  if truthy statusData = false then none
  else
    let inv := truthy (jsField statusData "inventaire_ouvert")
    let rct := truthy (jsField statusData "recette_ouvert")
    if inv && rct then some ("Jour ouvert pour inventaires et recettes", "ouvert")
    else if rct then some ("Jour ouvert pour recettes uniquement", "partiellement-ouvert")
    else if inv then some ("Jour ouvert pour inventaires uniquement", "partiellement-ouvert")
    else some ("Jour fermé pour toutes les saisies", "ferme")

/-! ## Role-to-permission auto-fill (permissions script)

Checkbox state is a map from permission identifier to checked flag (the
checkbox with DOM id `id_<perm>`; the admin form renders one checkbox per
permission, so every lookup succeeds). The two static tables are
transcribed verbatim from the source. -/

def TOUTES_PERMISSIONS : List String := [
  "peut_saisir_inventaire_normal",
  "peut_saisir_inventaire_admin",
  "peut_programmer_inventaire",
  "peut_voir_programmation_active",
  "peut_desactiver_programmation",
  "peut_voir_programmation_desactivee",
  "peut_voir_liste_inventaires",
  "peut_voir_liste_inventaires_admin",
  "peut_voir_jours_impertinents",
  "peut_voir_stats_deperdition",
  "peut_saisir_recette_peage",
  "peut_voir_liste_recettes_peage",
  "peut_voir_stats_recettes_peage",
  "peut_importer_recettes_peage",
  "peut_voir_evolution_peage",
  "peut_voir_objectifs_peage",
  "peut_saisir_quittance_peage",
  "peut_voir_liste_quittances_peage",
  "peut_comptabiliser_quittances_peage",
  "peut_voir_historique_vehicule_pesage",
  "peut_saisir_amende",
  "peut_saisir_pesee_jour",
  "peut_voir_objectifs_pesage",
  "peut_valider_paiement_amende",
  "peut_lister_amendes",
  "peut_saisir_quittance_pesage",
  "peut_comptabiliser_quittances_pesage",
  "peut_voir_liste_quittancements_pesage",
  "peut_voir_historique_pesees",
  "peut_voir_recettes_pesage",
  "peut_voir_stats_pesage",
  "peut_charger_stock_peage",
  "peut_voir_liste_stocks_peage",
  "peut_voir_stock_date_peage",
  "peut_transferer_stock_peage",
  "peut_voir_tracabilite_tickets",
  "peut_voir_bordereaux_peage",
  "peut_voir_mon_stock_peage",
  "peut_voir_historique_stock_peage",
  "peut_simuler_commandes_peage",
  "peut_gerer_postes",
  "peut_ajouter_poste",
  "peut_creer_poste_masse",
  "peut_gerer_utilisateurs",
  "peut_creer_utilisateur",
  "peut_voir_journal_audit",
  "peut_voir_rapports_defaillants_peage",
  "peut_voir_rapports_defaillants_pesage",
  "peut_voir_rapport_inventaires",
  "peut_voir_classement_peage_rendement",
  "peut_voir_classement_station_pesage",
  "peut_voir_classement_peage_deperdition",
  "peut_voir_classement_agents_inventaire",
  "peut_parametrage_global",
  "peut_voir_compte_emploi",
  "peut_voir_pv_confrontation",
  "peut_authentifier_document",
  "peut_voir_tous_postes"]

def PERMISSIONS_PAR_HABILITATION : List (String × List String) := [
  ("admin_principal", ["peut_saisir_inventaire_normal",
    "peut_saisir_inventaire_admin",
    "peut_programmer_inventaire",
    "peut_voir_programmation_active",
    "peut_desactiver_programmation",
    "peut_voir_programmation_desactivee",
    "peut_voir_liste_inventaires",
    "peut_voir_liste_inventaires_admin",
    "peut_voir_jours_impertinents",
    "peut_voir_stats_deperdition",
    "peut_saisir_recette_peage",
    "peut_voir_liste_recettes_peage",
    "peut_voir_stats_recettes_peage",
    "peut_importer_recettes_peage",
    "peut_voir_evolution_peage",
    "peut_voir_objectifs_peage",
    "peut_saisir_quittance_peage",
    "peut_voir_liste_quittances_peage",
    "peut_comptabiliser_quittances_peage",
    "peut_voir_historique_vehicule_pesage",
    "peut_saisir_amende",
    "peut_saisir_pesee_jour",
    "peut_voir_objectifs_pesage",
    "peut_valider_paiement_amende",
    "peut_lister_amendes",
    "peut_saisir_quittance_pesage",
    "peut_comptabiliser_quittances_pesage",
    "peut_voir_liste_quittancements_pesage",
    "peut_voir_historique_pesees",
    "peut_voir_recettes_pesage",
    "peut_voir_stats_pesage",
    "peut_charger_stock_peage",
    "peut_voir_liste_stocks_peage",
    "peut_voir_stock_date_peage",
    "peut_transferer_stock_peage",
    "peut_voir_tracabilite_tickets",
    "peut_voir_bordereaux_peage",
    "peut_voir_mon_stock_peage",
    "peut_voir_historique_stock_peage",
    "peut_simuler_commandes_peage",
    "peut_gerer_postes",
    "peut_ajouter_poste",
    "peut_creer_poste_masse",
    "peut_gerer_utilisateurs",
    "peut_creer_utilisateur",
    "peut_voir_journal_audit",
    "peut_voir_rapports_defaillants_peage",
    "peut_voir_rapports_defaillants_pesage",
    "peut_voir_rapport_inventaires",
    "peut_voir_classement_peage_rendement",
    "peut_voir_classement_station_pesage",
    "peut_voir_classement_peage_deperdition",
    "peut_voir_classement_agents_inventaire",
    "peut_parametrage_global",
    "peut_voir_compte_emploi",
    "peut_voir_pv_confrontation",
    "peut_authentifier_document",
    "peut_voir_tous_postes"]),
  ("coord_psrr", ["peut_saisir_inventaire_normal",
    "peut_saisir_inventaire_admin",
    "peut_programmer_inventaire",
    "peut_voir_programmation_active",
    "peut_desactiver_programmation",
    "peut_voir_programmation_desactivee",
    "peut_voir_liste_inventaires",
    "peut_voir_liste_inventaires_admin",
    "peut_voir_jours_impertinents",
    "peut_voir_stats_deperdition",
    "peut_saisir_recette_peage",
    "peut_voir_liste_recettes_peage",
    "peut_voir_stats_recettes_peage",
    "peut_importer_recettes_peage",
    "peut_voir_evolution_peage",
    "peut_voir_objectifs_peage",
    "peut_saisir_quittance_peage",
    "peut_voir_liste_quittances_peage",
    "peut_comptabiliser_quittances_peage",
    "peut_voir_historique_vehicule_pesage",
    "peut_saisir_amende",
    "peut_saisir_pesee_jour",
    "peut_voir_objectifs_pesage",
    "peut_valider_paiement_amende",
    "peut_lister_amendes",
    "peut_saisir_quittance_pesage",
    "peut_comptabiliser_quittances_pesage",
    "peut_voir_liste_quittancements_pesage",
    "peut_voir_historique_pesees",
    "peut_voir_recettes_pesage",
    "peut_voir_stats_pesage",
    "peut_charger_stock_peage",
    "peut_voir_liste_stocks_peage",
    "peut_voir_stock_date_peage",
    "peut_transferer_stock_peage",
    "peut_voir_tracabilite_tickets",
    "peut_voir_bordereaux_peage",
    "peut_voir_mon_stock_peage",
    "peut_voir_historique_stock_peage",
    "peut_simuler_commandes_peage",
    "peut_gerer_postes",
    "peut_ajouter_poste",
    "peut_creer_poste_masse",
    "peut_gerer_utilisateurs",
    "peut_creer_utilisateur",
    "peut_voir_journal_audit",
    "peut_voir_rapports_defaillants_peage",
    "peut_voir_rapports_defaillants_pesage",
    "peut_voir_rapport_inventaires",
    "peut_voir_classement_peage_rendement",
    "peut_voir_classement_station_pesage",
    "peut_voir_classement_peage_deperdition",
    "peut_voir_classement_agents_inventaire",
    "peut_parametrage_global",
    "peut_voir_compte_emploi",
    "peut_voir_pv_confrontation",
    "peut_authentifier_document",
    "peut_voir_tous_postes"]),
  ("serv_info", ["peut_saisir_inventaire_normal",
    "peut_saisir_inventaire_admin",
    "peut_programmer_inventaire",
    "peut_voir_programmation_active",
    "peut_desactiver_programmation",
    "peut_voir_programmation_desactivee",
    "peut_voir_liste_inventaires",
    "peut_voir_liste_inventaires_admin",
    "peut_voir_jours_impertinents",
    "peut_voir_stats_deperdition",
    "peut_saisir_recette_peage",
    "peut_voir_liste_recettes_peage",
    "peut_voir_stats_recettes_peage",
    "peut_importer_recettes_peage",
    "peut_voir_evolution_peage",
    "peut_voir_objectifs_peage",
    "peut_saisir_quittance_peage",
    "peut_voir_liste_quittances_peage",
    "peut_comptabiliser_quittances_peage",
    "peut_voir_historique_vehicule_pesage",
    "peut_saisir_amende",
    "peut_saisir_pesee_jour",
    "peut_voir_objectifs_pesage",
    "peut_valider_paiement_amende",
    "peut_lister_amendes",
    "peut_saisir_quittance_pesage",
    "peut_comptabiliser_quittances_pesage",
    "peut_voir_liste_quittancements_pesage",
    "peut_voir_historique_pesees",
    "peut_voir_recettes_pesage",
    "peut_voir_stats_pesage",
    "peut_charger_stock_peage",
    "peut_voir_liste_stocks_peage",
    "peut_voir_stock_date_peage",
    "peut_transferer_stock_peage",
    "peut_voir_tracabilite_tickets",
    "peut_voir_bordereaux_peage",
    "peut_voir_mon_stock_peage",
    "peut_voir_historique_stock_peage",
    "peut_simuler_commandes_peage",
    "peut_gerer_postes",
    "peut_ajouter_poste",
    "peut_creer_poste_masse",
    "peut_gerer_utilisateurs",
    "peut_creer_utilisateur",
    "peut_voir_journal_audit",
    "peut_voir_rapports_defaillants_peage",
    "peut_voir_rapports_defaillants_pesage",
    "peut_voir_rapport_inventaires",
    "peut_voir_classement_peage_rendement",
    "peut_voir_classement_station_pesage",
    "peut_voir_classement_peage_deperdition",
    "peut_voir_classement_agents_inventaire",
    "peut_parametrage_global",
    "peut_voir_compte_emploi",
    "peut_voir_pv_confrontation",
    "peut_authentifier_document",
    "peut_voir_tous_postes"]),
  ("serv_emission", ["peut_saisir_inventaire_normal",
    "peut_saisir_inventaire_admin",
    "peut_programmer_inventaire",
    "peut_voir_programmation_active",
    "peut_voir_programmation_desactivee",
    "peut_voir_liste_inventaires",
    "peut_voir_liste_inventaires_admin",
    "peut_voir_jours_impertinents",
    "peut_voir_stats_deperdition",
    "peut_saisir_recette_peage",
    "peut_voir_liste_recettes_peage",
    "peut_voir_stats_recettes_peage",
    "peut_voir_evolution_peage",
    "peut_voir_objectifs_peage",
    "peut_saisir_quittance_peage",
    "peut_voir_liste_quittances_peage",
    "peut_comptabiliser_quittances_peage",
    "peut_voir_objectifs_pesage",
    "peut_lister_amendes",
    "peut_comptabiliser_quittances_pesage",
    "peut_voir_liste_quittancements_pesage",
    "peut_voir_historique_pesees",
    "peut_voir_recettes_pesage",
    "peut_voir_stats_pesage",
    "peut_charger_stock_peage",
    "peut_voir_liste_stocks_peage",
    "peut_voir_stock_date_peage",
    "peut_transferer_stock_peage",
    "peut_voir_tracabilite_tickets",
    "peut_voir_bordereaux_peage",
    "peut_voir_mon_stock_peage",
    "peut_voir_historique_stock_peage",
    "peut_simuler_commandes_peage",
    "peut_voir_classement_peage_rendement",
    "peut_voir_classement_station_pesage",
    "peut_voir_classement_peage_deperdition",
    "peut_voir_classement_agents_inventaire",
    "peut_voir_compte_emploi",
    "peut_voir_pv_confrontation",
    "peut_authentifier_document",
    "peut_voir_tous_postes"]),
  ("chef_ag", ["peut_gerer_postes",
    "peut_ajouter_poste",
    "peut_creer_poste_masse",
    "peut_gerer_utilisateurs",
    "peut_creer_utilisateur",
    "peut_voir_journal_audit",
    "peut_parametrage_global",
    "peut_voir_tous_postes"]),
  ("serv_controle", ["peut_voir_liste_inventaires",
    "peut_voir_jours_impertinents",
    "peut_voir_stats_deperdition",
    "peut_voir_liste_recettes_peage",
    "peut_voir_stats_recettes_peage",
    "peut_voir_evolution_peage",
    "peut_voir_objectifs_peage",
    "peut_voir_liste_quittances_peage",
    "peut_comptabiliser_quittances_peage",
    "peut_voir_objectifs_pesage",
    "peut_lister_amendes",
    "peut_comptabiliser_quittances_pesage",
    "peut_voir_liste_quittancements_pesage",
    "peut_voir_historique_pesees",
    "peut_voir_recettes_pesage",
    "peut_voir_stats_pesage",
    "peut_voir_liste_stocks_peage",
    "peut_voir_stock_date_peage",
    "peut_voir_tracabilite_tickets",
    "peut_voir_bordereaux_peage",
    "peut_voir_historique_stock_peage",
    "peut_voir_journal_audit",
    "peut_voir_rapports_defaillants_peage",
    "peut_voir_rapports_defaillants_pesage",
    "peut_voir_rapport_inventaires",
    "peut_voir_classement_peage_rendement",
    "peut_voir_classement_station_pesage",
    "peut_voir_classement_peage_deperdition",
    "peut_voir_classement_agents_inventaire",
    "peut_parametrage_global",
    "peut_voir_compte_emploi",
    "peut_voir_pv_confrontation",
    "peut_authentifier_document",
    "peut_voir_tous_postes"]),
  ("serv_ordre", ["peut_voir_stats_deperdition",
    "peut_voir_liste_recettes_peage",
    "peut_voir_stats_recettes_peage",
    "peut_voir_evolution_peage",
    "peut_voir_objectifs_peage",
    "peut_voir_liste_quittances_peage",
    "peut_comptabiliser_quittances_peage",
    "peut_voir_objectifs_pesage",
    "peut_lister_amendes",
    "peut_comptabiliser_quittances_pesage",
    "peut_voir_liste_quittancements_pesage",
    "peut_voir_historique_pesees",
    "peut_voir_recettes_pesage",
    "peut_voir_stats_pesage",
    "peut_voir_liste_stocks_peage",
    "peut_voir_tracabilite_tickets",
    "peut_voir_bordereaux_peage",
    "peut_voir_historique_stock_peage",
    "peut_voir_rapports_defaillants_peage",
    "peut_voir_rapports_defaillants_pesage",
    "peut_voir_rapport_inventaires",
    "peut_voir_classement_peage_rendement",
    "peut_voir_classement_station_pesage",
    "peut_voir_classement_peage_deperdition",
    "peut_voir_compte_emploi",
    "peut_voir_pv_confrontation",
    "peut_authentifier_document",
    "peut_voir_tous_postes"]),
  ("cisop_peage", ["peut_voir_liste_inventaires",
    "peut_voir_jours_impertinents",
    "peut_voir_stats_deperdition",
    "peut_voir_liste_recettes_peage",
    "peut_voir_stats_recettes_peage",
    "peut_voir_evolution_peage",
    "peut_voir_objectifs_peage",
    "peut_voir_liste_quittances_peage",
    "peut_comptabiliser_quittances_peage",
    "peut_voir_liste_stocks_peage",
    "peut_voir_stock_date_peage",
    "peut_voir_tracabilite_tickets",
    "peut_voir_bordereaux_peage",
    "peut_voir_historique_stock_peage",
    "peut_voir_rapports_defaillants_peage",
    "peut_voir_rapport_inventaires",
    "peut_voir_classement_peage_rendement",
    "peut_voir_classement_peage_deperdition",
    "peut_voir_classement_agents_inventaire",
    "peut_voir_compte_emploi",
    "peut_voir_pv_confrontation",
    "peut_authentifier_document",
    "peut_voir_tous_postes"]),
  ("cisop_pesage", ["peut_voir_historique_vehicule_pesage",
    "peut_voir_objectifs_pesage",
    "peut_lister_amendes",
    "peut_voir_liste_quittancements_pesage",
    "peut_voir_historique_pesees",
    "peut_voir_recettes_pesage",
    "peut_voir_stats_pesage",
    "peut_voir_rapports_defaillants_pesage",
    "peut_voir_classement_station_pesage",
    "peut_voir_pv_confrontation",
    "peut_authentifier_document",
    "peut_voir_tous_postes"]),
  ("chef_peage", ["peut_voir_liste_inventaires",
    "peut_voir_jours_impertinents",
    "peut_voir_stats_deperdition",
    "peut_voir_liste_inventaires_admin",
    "peut_saisir_recette_peage",
    "peut_voir_liste_recettes_peage",
    "peut_voir_stats_recettes_peage",
    "peut_voir_evolution_peage",
    "peut_voir_objectifs_peage",
    "peut_saisir_quittance_peage",
    "peut_voir_liste_quittances_peage",
    "peut_comptabiliser_quittances_peage",
    "peut_voir_liste_stocks_peage",
    "peut_voir_stock_date_peage",
    "peut_voir_tracabilite_tickets",
    "peut_voir_bordereaux_peage",
    "peut_voir_mon_stock_peage",
    "peut_voir_historique_stock_peage",
    "peut_voir_rapport_inventaires",
    "peut_voir_classement_peage_rendement",
    "peut_voir_classement_peage_deperdition",
    "peut_voir_classement_agents_inventaire",
    "peut_voir_compte_emploi",
    "peut_authentifier_document"]),
  ("agent_inventaire", ["peut_saisir_inventaire_normal"]),
  ("chef_station_pesage", ["peut_voir_historique_vehicule_pesage",
    "peut_saisir_amende",
    "peut_voir_objectifs_pesage",
    "peut_lister_amendes",
    "peut_voir_liste_quittancements_pesage",
    "peut_voir_historique_pesees",
    "peut_voir_recettes_pesage",
    "peut_voir_stats_pesage",
    "peut_voir_classement_station_pesage",
    "peut_voir_pv_confrontation",
    "peut_authentifier_document"]),
  ("regisseur_pesage", ["peut_voir_historique_vehicule_pesage",
    "peut_saisir_amende",
    "peut_saisir_pesee_jour",
    "peut_voir_objectifs_pesage",
    "peut_valider_paiement_amende",
    "peut_lister_amendes",
    "peut_saisir_quittance_pesage",
    "peut_voir_liste_quittancements_pesage",
    "peut_voir_historique_pesees",
    "peut_voir_recettes_pesage",
    "peut_voir_stats_pesage",
    "peut_voir_classement_station_pesage",
    "peut_voir_pv_confrontation",
    "peut_authentifier_document"]),
  ("chef_equipe_pesage", ["peut_voir_historique_vehicule_pesage",
    "peut_saisir_amende",
    "peut_saisir_pesee_jour",
    "peut_voir_objectifs_pesage",
    "peut_lister_amendes",
    "peut_voir_historique_pesees",
    "peut_voir_stats_pesage"]),
  ("imprimerie", ["peut_voir_historique_stock_peage"])]

/-- resetAllPermissions: uncheck the checkbox of every permission in
TOUTES_PERMISSIONS (updatePermissionsIndicator only re-renders a counter). -/
def resetAllPermissions (checked : String → Bool) : String → Bool :=
  fun p => if p ∈ TOUTES_PERMISSIONS then false else checked p

/-- checkAllPermissions: check the checkbox of every permission in
TOUTES_PERMISSIONS. -/
def checkAllPermissions (checked : String → Bool) : String → Bool :=
  fun p => if p ∈ TOUTES_PERMISSIONS then true else checked p

/-- applyPermissionsForHabilitation: first uncheck everything, then, when
the habilitation is a key of the table, check each permission of its
list. An unknown habilitation skips the second step (the part_001 variant
additionally logs a warning). -/
def applyPermissionsForHabilitation (habilitation : String) (checked : String → Bool) :
    String → Bool :=
  let cleared := resetAllPermissions checked
  match List.lookup habilitation PERMISSIONS_PAR_HABILITATION with
  | some perms => fun p => if p ∈ perms then true else cleared p
  | none => cleared

/-! ## Cascading region/department selects (region_departement.js) -/

/-- One `<option>` element of the department select. -/
structure SelectOption where
  value : String
  text : String
deriving DecidableEq

/-- The department select: its option list and its disabled flag. -/
structure DeptSelectState where
  options : List SelectOption
  disabled : Bool
deriving DecidableEq

def REGIONS_DEPARTEMENTS : List (String × String × List String) := [
  ("adamaoua", "Adamaoua", ["Djerem", "Faro-et-Déo", "Mayo-Banyo", "Mbéré", "Vina"]),
  ("centre", "Centre", ["Haute-Sanaga", "Lekié", "Mbam-et-Inoubou", "Mbam-et-Kim", "Méfou-et-Afamba", "Méfou-et-Akono", "Mfoundi", "Nyong-et-Kéllé", "Nyong-et-Mfoumou", "Nyong-et-So\x27o"]),
  ("est", "Est", ["Boumba-et-Ngoko", "Haut-Nyong", "Kadey", "Lom-et-Djerem"]),
  ("extreme_nord", "Extrême-Nord", ["Diamaré", "Logone-et-Chari", "Mayo-Danay", "Mayo-Kani", "Mayo-Sava", "Mayo-Tsanaga"]),
  ("littoral", "Littoral", ["Moungo", "Nkam", "Sanaga-Maritime", "Wouri"]),
  ("nord", "Nord", ["Bénoué", "Faro", "Mayo-Louti", "Mayo-Rey"]),
  ("nord_ouest", "Nord-Ouest", ["Boyo", "Bui", "Donga-Mantung", "Menchum", "Mezam", "Momo", "Ngo-Ketunjia"]),
  ("ouest", "Ouest", ["Bamboutos", "Haut-Nkam", "Hauts-Plateaux", "Koung-Khi", "Menoua", "Mifi", "Ndé", "Noun"]),
  ("sud", "Sud", ["Dja-et-Lobo", "Mvila", "Océan", "Vallée-du-Ntem"]),
  ("sud_ouest", "Sud-Ouest", ["Fako", "Koupé-Manengouba", "Lebialem", "Manyu", "Meme", "Ndian"])]

/-- RegionDepartementWidget.updateDepartements: reset the option list to
the single placeholder; a falsy region value or one absent from the table
disables the select; otherwise append one option per department of the
region and enable the select. The prior select state is discarded. -/
def updateDepartements (regionValue : String) (_s : DeptSelectState) : DeptSelectState :=
  let base : List SelectOption := [{ value := "", text := "Sélectionner un département..." }]
  if regionValue = "" then { options := base, disabled := true }
  else
    match List.lookup regionValue REGIONS_DEPARTEMENTS with
    | none => { options := base, disabled := true }
    | some (_, depts) =>
      { options := base ++ depts.map (fun d => { value := d, text := d })
        disabled := false }

/-! ## Concrete checkbox states used in the statements -/

/-- The fully checked checkbox set. -/
def fullChecked : String → Bool := fun _ => true

/-- A checkbox state with exactly one permission checked. -/
def oneChecked : String → Bool := fun p => p == "peut_saisir_inventaire_normal"

/-! ## Theorems -/

/-- C4: for every failure of the check-day-status fetch (network error,
non-OK HTTP response, or a success:false body), checkDayStatusAPI resolves
to the permissive default object with inventaire_ouvert and recette_ouvert
both true, and the rendered banner reports the day open for inventories
and revenues. The function is total, so no exception propagates. -/
theorem c4_day_status_fail_open (r : FetchResult) (h : fetchFails r = true) :
    checkDayStatusAPI r = degradedDefault ∧
    jsField (checkDayStatusAPI r) "inventaire_ouvert" = .bool true ∧
    jsField (checkDayStatusAPI r) "recette_ouvert" = .bool true ∧
    afficherStatutJour (checkDayStatusAPI r) =
      some ("Jour ouvert pour inventaires et recettes", "ouvert") := by
  have hdef : checkDayStatusAPI r = degradedDefault := by
    cases r with
    | networkError => rfl
    | response ok body =>
      cases ok with
      | false => cases body <;> rfl
      | true =>
        cases body with
        | none => rfl
        | some data =>
          simp only [fetchFails, Bool.not_true, Bool.false_or, Bool.not_eq_true'] at h
          simp [checkDayStatusAPI, h]
  refine ⟨hdef, ?_, ?_, ?_⟩ <;> rw [hdef] <;> rfl

/-- Witness for C4 at a concrete failing fetch. -/
theorem c4_day_status_fail_open_witness :
    fetchFails .networkError = true ∧
    checkDayStatusAPI .networkError = degradedDefault ∧
    afficherStatutJour (checkDayStatusAPI .networkError) =
      some ("Jour ouvert pour inventaires et recettes", "ouvert") :=
  ⟨rfl, (c4_day_status_fail_open .networkError rfl).1,
    (c4_day_status_fail_open .networkError rfl).2.2.2⟩

/-- C7: selecting region littoral rebuilds the department select as the
placeholder plus exactly Moungo, Nkam, Sanaga-Maritime, Wouri (in that
order) and enables it; selecting the empty region value disables the
select and resets it to the placeholder alone, clearing every department
option. The constant first row with empty value is the select's prompt,
not a department option. -/
theorem c7_littoral_departements_exact (s : DeptSelectState) :
    (updateDepartements "littoral" s).options =
      [⟨"", "Sélectionner un département..."⟩,
       ⟨"Moungo", "Moungo"⟩, ⟨"Nkam", "Nkam"⟩,
       ⟨"Sanaga-Maritime", "Sanaga-Maritime"⟩, ⟨"Wouri", "Wouri"⟩] ∧
    (updateDepartements "littoral" s).disabled = false ∧
    (((updateDepartements "littoral" s).options.filter
        (fun o => o.value != "")).map SelectOption.text) =
      ["Moungo", "Nkam", "Sanaga-Maritime", "Wouri"] ∧
    (updateDepartements "" s).options = [⟨"", "Sélectionner un département..."⟩] ∧
    ((updateDepartements "" s).options.filter (fun o => o.value != "")) = [] ∧
    (updateDepartements "" s).disabled = true :=
  ⟨rfl, rfl, rfl, rfl, rfl, rfl⟩

/-- C10: each of the four globally exposed day-picker operations returns
immediately when called with a widget id different from the one the
instance was initialized with, leaving the whole widget state (selected
set, hidden field, count) unchanged. -/
theorem c10_wrong_widget_id_noop (widgetId wId : String) (d : Int) (s : CalState)
    (h : wId ≠ widgetId) :
    toggleDay widgetId d wId s = s ∧
    selectAllDays widgetId wId s = s ∧
    clearAllDays widgetId wId s = s ∧
    selectWeekdays widgetId wId s = s := by
  refine ⟨?_, ?_, ?_, ?_⟩ <;>
    simp [toggleDay, selectAllDays, clearAllDays, selectWeekdays, h]

/-- Witness for C10 at a concrete foreign widget id. -/
theorem c10_wrong_widget_id_noop_witness :
    toggleDay "a" 3 "b" ⟨10, 2025, [], [], 0⟩ = ⟨10, 2025, [], [], 0⟩ ∧
    selectAllDays "a" "b" ⟨10, 2025, [], [], 0⟩ = ⟨10, 2025, [], [], 0⟩ ∧
    clearAllDays "a" "b" ⟨10, 2025, [], [], 0⟩ = ⟨10, 2025, [], [], 0⟩ ∧
    selectWeekdays "a" "b" ⟨10, 2025, [], [], 0⟩ = ⟨10, 2025, [], [], 0⟩ :=
  c10_wrong_widget_id_noop "a" "b" 3 ⟨10, 2025, [], [], 0⟩ (by decide)

/-- C2 counterexample: the claim asserts that applying role
agent_inventaire to a fully checked checkbox set leaves all permissions
outside the role's list unchanged. On the fully checked set, the
permission peut_saisir_inventaire_admin (outside agent_inventaire's list)
is checked before and unchecked after: it is changed. -/
theorem c2_full_set_changed_counterexample :
    List.lookup "agent_inventaire" PERMISSIONS_PAR_HABILITATION =
      some ["peut_saisir_inventaire_normal"] ∧
    "peut_saisir_inventaire_admin" ∈ TOUTES_PERMISSIONS ∧
    "peut_saisir_inventaire_admin" ≠ "peut_saisir_inventaire_normal" ∧
    fullChecked "peut_saisir_inventaire_admin" = true ∧
    applyPermissionsForHabilitation "agent_inventaire" fullChecked
      "peut_saisir_inventaire_admin" = false := by
  decide

/-- C2 (amended): selecting a role first clears all permission checkboxes
and then checks exactly the checkboxes of that role's static list; in
particular, applying agent_inventaire's set to a fully checked set leaves
exactly the role's list checked and every other permission checkbox
unchecked. -/
theorem c2_amended_agent_inventaire_exact (checked : String → Bool) (p : String)
    (hp : p ∈ TOUTES_PERMISSIONS) :
    applyPermissionsForHabilitation "agent_inventaire" checked p =
      (p == "peut_saisir_inventaire_normal") ∧
    (∀ hab perms (q : String),
      List.lookup hab PERMISSIONS_PAR_HABILITATION = some perms →
      applyPermissionsForHabilitation hab checked q =
        (if q ∈ perms then true
         else if q ∈ TOUTES_PERMISSIONS then false else checked q)) := by
  constructor
  · have hl : List.lookup "agent_inventaire" PERMISSIONS_PAR_HABILITATION =
        some ["peut_saisir_inventaire_normal"] := by decide
    unfold applyPermissionsForHabilitation
    rw [hl]
    by_cases hq : p = "peut_saisir_inventaire_normal"
    · simp [hq]
    · simp [hq, resetAllPermissions, hp]
  · intro hab perms q hl
    unfold applyPermissionsForHabilitation
    rw [hl]
    by_cases hq : q ∈ perms
    · simp [hq]
    · simp [hq, resetAllPermissions]

/-- Witness for C2 (amended): the sole permission of agent_inventaire is
checked, a foreign one is cleared, on the fully checked set. -/
theorem c2_amended_agent_inventaire_exact_witness :
    applyPermissionsForHabilitation "agent_inventaire" fullChecked
      "peut_saisir_inventaire_normal" =
      ("peut_saisir_inventaire_normal" == "peut_saisir_inventaire_normal") ∧
    applyPermissionsForHabilitation "agent_inventaire" fullChecked
      "peut_gerer_postes" = ("peut_gerer_postes" == "peut_saisir_inventaire_normal") :=
  ⟨(c2_amended_agent_inventaire_exact fullChecked
      "peut_saisir_inventaire_normal" (by decide)).1,
   (c2_amended_agent_inventaire_exact fullChecked
      "peut_gerer_postes" (by decide)).1⟩

/-- C3 counterexample: the claim asserts that an unknown role identifier
leaves every permission checkbox unchanged. With only
peut_saisir_inventaire_normal checked, applying the unknown role
role_inconnu unchecks it. -/
theorem c3_unknown_role_clears_counterexample :
    List.lookup "role_inconnu" PERMISSIONS_PAR_HABILITATION = none ∧
    oneChecked "peut_saisir_inventaire_normal" = true ∧
    applyPermissionsForHabilitation "role_inconnu" oneChecked
      "peut_saisir_inventaire_normal" = false := by
  decide

/-- C3 (amended): for every role identifier that is not a key of the
static table, the auto-fill still runs its unconditional first step and
clears all permission checkboxes (the part_001 variant also logs a
warning); it checks none afterwards, so the operation equals
resetAllPermissions and every permission checkbox ends unchecked. -/
theorem c3_amended_unknown_role_clears (hab : String) (checked : String → Bool)
    (h : List.lookup hab PERMISSIONS_PAR_HABILITATION = none) :
    applyPermissionsForHabilitation hab checked = resetAllPermissions checked ∧
    ∀ p ∈ TOUTES_PERMISSIONS, applyPermissionsForHabilitation hab checked p = false := by
  have h1 : applyPermissionsForHabilitation hab checked = resetAllPermissions checked := by
    unfold applyPermissionsForHabilitation
    rw [h]
  refine ⟨h1, ?_⟩
  intro p hp
  rw [h1]
  simp [resetAllPermissions, hp]

/-- Witness for C3 (amended) at the unknown role role_inconnu. -/
theorem c3_amended_unknown_role_clears_witness :
    applyPermissionsForHabilitation "role_inconnu" fullChecked =
      resetAllPermissions fullChecked ∧
    applyPermissionsForHabilitation "role_inconnu" fullChecked
      "peut_gerer_postes" = false :=
  ⟨(c3_amended_unknown_role_clears "role_inconnu" fullChecked (by decide)).1,
   (c3_amended_unknown_role_clears "role_inconnu" fullChecked (by decide)).2
     "peut_gerer_postes" (by decide)⟩

/-- C8 counterexample: the claim asserts that no check-day-status request
is issued for a date one year and one day in the past. With today
2025-10-11, the value 2024-10-10 is exactly one year and one day in the
past; validateDate flags it invalid with the inline too-old message, yet
the change handler still calls checkDayStatusAPI for it: the network
request is issued. -/
theorem c8_fetch_issued_counterexample :
    oneYearBefore ⟨2025, 10, 11⟩ = ⟨2024, 10, 11⟩ ∧
    dayBefore (oneYearBefore ⟨2025, 10, 11⟩) = ⟨2024, 10, 10⟩ ∧
    isoOf (⟨2024, 10, 10⟩ : DateTriple) = "2024-10-10" ∧
    validateDate (isoOf (⟨2024, 10, 10⟩ : DateTriple)) (isoOf ⟨2025, 10, 11⟩)
      (isoOf (oneYearBefore ⟨2025, 10, 11⟩)) = .invalidTooOld ∧
    isInvalidFlag .invalidTooOld = true ∧
    dateErrorMessage .invalidTooOld = some "Date trop ancienne (plus d\x27un an)" ∧
    changeHandlerIssuesFetch (isoOf (⟨2024, 10, 10⟩ : DateTriple)) true = true := by
  decide

/-- C8 (amended): a date value the validator classifies as too old (in
particular one a year and a day in the past) is flagged is-invalid with
the inline too-old message, but the change handler still issues the
check-day-status request for that value: validation does not gate the
fetch. -/
theorem c8_amended_invalid_date_still_fetches
    (value todayStr pastLimitStr : String)
    (h : validateDate value todayStr pastLimitStr = .invalidTooOld) :
    isInvalidFlag (validateDate value todayStr pastLimitStr) = true ∧
    dateErrorMessage (validateDate value todayStr pastLimitStr) =
      some "Date trop ancienne (plus d\x27un an)" ∧
    changeHandlerIssuesFetch value true = true := by
  refine ⟨by rw [h]; rfl, by rw [h]; rfl, ?_⟩
  have hv : value ≠ "" := by
    intro hv
    rw [validateDate, if_pos hv] at h
    exact DateValidity.noConfusion h
  simp [changeHandlerIssuesFetch, hv]

/-- Witness for C8 (amended) at the concrete date of the counterexample
setting. -/
theorem c8_amended_invalid_date_still_fetches_witness :
    isInvalidFlag (validateDate "2024-10-10" "2025-10-11" "2024-10-11") = true ∧
    dateErrorMessage (validateDate "2024-10-10" "2025-10-11" "2024-10-11") =
      some "Date trop ancienne (plus d\x27un an)" ∧
    changeHandlerIssuesFetch "2024-10-10" true = true :=
  c8_amended_invalid_date_still_fetches "2024-10-10" "2025-10-11" "2024-10-11" (by decide)

/-- C9 counterexample: the claim asserts that non-numeric stored JSON
resets the selection to the empty set. The stored text between the
brackets of the JSON array literal holding the single string a parses to
an array of one string; loadSelectedDays keeps it verbatim, so the
selection is not empty and the count display shows 1. -/
theorem c9_non_numeric_array_kept_counterexample :
    loadSelectedDays false (.ok (.arr [.str "a"])) = [.str "a"] ∧
    (loadSelectedDays false (.ok (.arr [.str "a"]))).length = 1 ∧
    loadSelectedDays false (.ok (.arr [.str "a"])) ≠ [] := by
  refine ⟨rfl, rfl, ?_⟩
  simp [loadSelectedDays]

/-- C9 (amended): a JSON.parse failure (malformed JSON) and any parsed
value that is not an array reset the selection to the empty set with only
a warning, as does an empty field; but a parsed array is kept verbatim,
including non-numeric elements, which are only dropped at the next
serialization. loadSelectedDays is total, so no error is raised. -/
theorem c9_amended_malformed_or_nonarray_empty
    (e : Bool) (v : JsValue) (p : Except Unit JsValue)
    (hv : ∀ xs, v ≠ .arr xs) :
    loadSelectedDays e (.error ()) = [] ∧
    loadSelectedDays false (.ok v) = [] ∧
    loadSelectedDays true p = [] := by
  refine ⟨?_, ?_, rfl⟩
  · cases e <;> rfl
  · cases v with
    | arr xs => exact absurd rfl (hv xs)
    | _ => rfl

/-- Witness for C9 (amended) at a parsed non-array value. -/
theorem c9_amended_malformed_or_nonarray_empty_witness :
    loadSelectedDays false (.error ()) = [] ∧
    loadSelectedDays false (.ok (.str "abc")) = [] ∧
    loadSelectedDays true (.ok .null) = [] :=
  c9_amended_malformed_or_nonarray_empty false (.str "abc") (.ok .null)
    (fun _ h => JsValue.noConfusion h)

/-! ## Helper lemmas about the calendar list operations -/

theorem numsOf_map_num (l : List Int) : numsOf (l.map JsValue.num) = l := by
  induction l with
  | nil => rfl
  | cons x l ih => simpa [numsOf, List.filterMap_cons] using ih

theorem numsOf_append (xs ys : List JsValue) :
    numsOf (xs ++ ys) = numsOf xs ++ numsOf ys := by
  simp [numsOf, List.filterMap_append]

theorem isTheNum_iff (d : Int) (x : JsValue) :
    isTheNum d x = true ↔ x = JsValue.num d := by
  cases x <;> simp [isTheNum]

theorem mem_numsOf (d : Int) (xs : List JsValue) :
    d ∈ numsOf xs ↔ JsValue.num d ∈ xs := by
  simp only [numsOf, List.mem_filterMap]
  constructor
  · rintro ⟨x, hx, hfx⟩
    cases x <;> simp_all
  · intro h
    exact ⟨_, h, rfl⟩

theorem containsNum_iff (d : Int) (xs : List JsValue) :
    containsNum d xs = true ↔ d ∈ numsOf xs := by
  simp [containsNum, List.any_eq_true, isTheNum_iff, mem_numsOf]

theorem eraseNum_map_num (d : Int) (l : List Int) :
    eraseNum d (l.map JsValue.num) = (l.erase d).map JsValue.num := by
  induction l with
  | nil => rfl
  | cons x l ih =>
    by_cases hx : x = d
    · simp [eraseNum, isTheNum, hx, List.erase_cons]
    · simp [eraseNum, isTheNum, hx, List.erase_cons, ih]

theorem mem_cleanDays (n : Int) (xs : List JsValue) :
    n ∈ cleanDays xs ↔ n ∈ numsOf xs ∧ 1 ≤ n ∧ n ≤ 31 := by
  simp [cleanDays, List.mem_insertionSort, List.mem_filter, dayInRange]

theorem cleanDays_sorted_le (xs : List JsValue) : (cleanDays xs).Sorted (· ≤ ·) :=
  List.sorted_insertionSort _ _

theorem cleanDays_nodup (xs : List JsValue) (h : (numsOf xs).Nodup) :
    (cleanDays xs).Nodup :=
  ((List.perm_insertionSort _ _).nodup_iff).mpr (h.filter _)

theorem cleanDays_sorted_lt (xs : List JsValue) (h : (numsOf xs).Nodup) :
    (cleanDays xs).Sorted (· < ·) :=
  ((cleanDays_sorted_le xs).and (cleanDays_nodup xs h)).imp
    fun hab => lt_of_le_of_ne hab.1 hab.2

theorem numsOf_eraseNum_sublist (d : Int) (xs : List JsValue) :
    List.Sublist (numsOf (eraseNum d xs)) (numsOf xs) := by
  induction xs with
  | nil => exact List.Sublist.refl _
  | cons x xs ih =>
    by_cases hx : isTheNum d x = true
    · rw [show eraseNum d (x :: xs) = xs from by simp [eraseNum, hx]]
      cases x with
      | num n => exact List.sublist_cons_self _ _
      | str s => exact List.Sublist.refl _
      | bool b => exact List.Sublist.refl _
      | null => exact List.Sublist.refl _
      | undefined => exact List.Sublist.refl _
      | arr es => exact List.Sublist.refl _
      | obj fs => exact List.Sublist.refl _
    · rw [show eraseNum d (x :: xs) = x :: eraseNum d xs from by simp [eraseNum, hx]]
      cases x with
      | num n => exact List.Sublist.cons₂ _ ih
      | str s => exact ih
      | bool b => exact ih
      | null => exact ih
      | undefined => exact ih
      | arr es => exact ih
      | obj fs => exact ih

theorem daysInMonth_le_31 (y m : Nat) : daysInMonth y m ≤ 31 := by
  unfold daysInMonth
  split_ifs <;> omega

theorem allDaysList_nodup (y m : Nat) : (allDaysList y m).Nodup := by
  unfold allDaysList
  refine List.Nodup.map ?_ (List.nodup_range _)
  intro a b h
  dsimp only at h
  omega

theorem weekdaysList_nodup (y m : Nat) : (weekdaysList y m).Nodup :=
  (allDaysList_nodup y m).filter _

theorem mem_allDaysList (y m : Nat) (n : Int) :
    n ∈ allDaysList y m ↔ 1 ≤ n ∧ n ≤ (daysInMonth y m : Int) := by
  unfold allDaysList
  simp only [List.mem_map, List.mem_range]
  constructor
  · rintro ⟨k, hk, rfl⟩
    omega
  · rintro ⟨h1, h2⟩
    refine ⟨(n - 1).toNat, ?_, ?_⟩ <;> omega

theorem mem_weekdaysList (y m : Nat) (d : Nat) :
    (d : Int) ∈ weekdaysList y m ↔
      1 ≤ d ∧ d ≤ daysInMonth y m ∧
      1 ≤ dayOfWeek y m d ∧ dayOfWeek y m d ≤ 5 := by
  unfold weekdaysList
  simp only [List.mem_filter, mem_allDaysList, Bool.and_eq_true, decide_eq_true_eq,
    Int.toNat_natCast]
  omega

theorem weekdaysList_sorted_lt (y m : Nat) : (weekdaysList y m).Sorted (· < ·) := by
  have hall : (allDaysList y m).Sorted (· < ·) := by
    unfold allDaysList
    exact (List.pairwise_lt_range _).map _ (fun a b h => by omega)
  exact hall.sublist (List.filter_sublist _)

theorem weekdaysList_range (y m : Nat) :
    ∀ n ∈ weekdaysList y m, 1 ≤ n ∧ n ≤ 31 := by
  intro n hn
  have hmem : n ∈ allDaysList y m := List.mem_of_mem_filter hn
  rw [mem_allDaysList] at hmem
  have h31 := daysInMonth_le_31 y m
  omega

theorem cleanDays_weekdays (y m : Nat) :
    cleanDays ((weekdaysList y m).map JsValue.num) = weekdaysList y m := by
  unfold cleanDays
  rw [numsOf_map_num, List.filter_eq_self.mpr, List.Sorted.insertionSort_eq]
  · exact (weekdaysList_sorted_lt y m).imp fun h => le_of_lt h
  · intro x hx
    have := weekdaysList_range y m x hx
    simp only [dayInRange, Bool.and_eq_true, decide_eq_true_eq]
    omega

theorem toggleDay_core (wid : String) (d : Int) (s : CalState)
    (hd1 : 1 ≤ d) (hd2 : d ≤ 31) :
    toggleDay wid d wid s =
      updateHiddenInput { s with
        selectedDays :=
          if containsNum d s.selectedDays then eraseNum d s.selectedDays
          else s.selectedDays ++ [JsValue.num d] } := by
  unfold toggleDay
  rw [if_neg (by simp), if_neg (by omega)]

theorem selectWeekdays_normal (wid : String) (s : CalState)
    (hm : s.currentMonth ≠ 0) (hy : s.currentYear ≠ 0) :
    selectWeekdays wid wid s =
      ⟨s.currentMonth, s.currentYear,
       (weekdaysList s.currentYear s.currentMonth).map JsValue.num,
       weekdaysList s.currentYear s.currentMonth,
       (weekdaysList s.currentYear s.currentMonth).length⟩ := by
  cases s with
  | mk m y sel hid c =>
    dsimp only at hm hy ⊢
    unfold selectWeekdays
    rw [if_neg (by simp), if_neg (by simp [hm, hy])]
    unfold updateHiddenInput
    dsimp only
    rw [cleanDays_weekdays]

theorem isoWeekday_range_iff (y m d : Nat) :
    (1 ≤ isoWeekday y m d ∧ isoWeekday y m d ≤ 5) ↔
      (1 ≤ dayOfWeek y m d ∧ dayOfWeek y m d ≤ 5) := by
  unfold isoWeekday
  by_cases h : dayOfWeek y m d = 0 <;> simp [h]

theorem toggle_step_nodup (wid : String) (d : Int) (s : CalState) (ys : List Int)
    (hsel : s.selectedDays = ys.map JsValue.num)
    (hnd : ys.Nodup) (hrange : ∀ y ∈ ys, 1 ≤ y ∧ y ≤ 31)
    (hd1 : 1 ≤ d) (hd2 : d ≤ 31) :
    ∃ zs : List Int,
      (toggleDay wid d wid s).selectedDays = zs.map JsValue.num ∧
      zs.Nodup ∧ (∀ z ∈ zs, 1 ≤ z ∧ z ≤ 31) ∧
      ∀ n : Int, n ∈ zs ↔ ((n ∈ ys ∧ n ≠ d) ∨ (n = d ∧ d ∉ ys)) := by
  rw [toggleDay_core wid d s hd1 hd2]
  by_cases hc : d ∈ ys
  · have hcc : containsNum d s.selectedDays = true := by
      rw [hsel, containsNum_iff, numsOf_map_num]
      exact hc
    refine ⟨cleanDays (eraseNum d s.selectedDays), ?_, ?_, ?_, ?_⟩
    · simp [updateHiddenInput, hcc]
    · apply cleanDays_nodup
      rw [hsel, eraseNum_map_num, numsOf_map_num]
      exact hnd.erase d
    · intro z hz
      exact ((mem_cleanDays z _).mp hz).2
    · intro n
      rw [mem_cleanDays, hsel, eraseNum_map_num, numsOf_map_num, hnd.mem_erase_iff]
      constructor
      · rintro ⟨⟨hne, hmem⟩, _⟩
        exact Or.inl ⟨hmem, hne⟩
      · rintro (⟨hmem, hne⟩ | ⟨rfl, habs⟩)
        · exact ⟨⟨hne, hmem⟩, hrange n hmem⟩
        · exact absurd hc habs
  · have hcc : containsNum d s.selectedDays = false := by
      rw [← Bool.not_eq_true, hsel, containsNum_iff, numsOf_map_num]
      exact hc
    refine ⟨cleanDays (s.selectedDays ++ [JsValue.num d]), ?_, ?_, ?_, ?_⟩
    · simp [updateHiddenInput, hcc]
    · apply cleanDays_nodup
      rw [hsel, numsOf_append, numsOf_map_num,
        show numsOf [JsValue.num d] = [d] from rfl]
      simp [List.nodup_append, hnd, hc]
    · intro z hz
      exact ((mem_cleanDays z _).mp hz).2
    · intro n
      rw [mem_cleanDays, hsel, numsOf_append, numsOf_map_num,
        show numsOf [JsValue.num d] = [d] from rfl]
      simp only [List.mem_append, List.mem_singleton]
      constructor
      · rintro ⟨hmem | rfl, hr⟩
        · exact Or.inl ⟨hmem, fun hnd2 => hc (hnd2 ▸ hmem)⟩
        · exact Or.inr ⟨rfl, hc⟩
      · rintro (⟨hmem, _⟩ | ⟨rfl, _⟩)
        · exact ⟨Or.inl hmem, hrange n hmem⟩
        · exact ⟨Or.inr rfl, hd1, hd2⟩

/-- C1 counterexample: the claim asserts that after every mutating
operation, for every prior content of the selected set including one
loaded from the hidden field, the serialized array is strictly ascending
and duplicate-free. Load the hidden field content holding 5 twice (a valid
JSON integer array), then toggle day 3: updateHiddenInput filters and
sorts but never deduplicates, so the hidden field receives the array
3, 5, 5, which has a duplicate and is not strictly ascending. -/
theorem c1_hidden_field_duplicates_counterexample :
    (toggleDay "w" 3 "w"
        ⟨10, 2025, [JsValue.num 5, JsValue.num 5], [5, 5], 2⟩).hiddenValue = [3, 5, 5] ∧
    ¬ ((toggleDay "w" 3 "w"
        ⟨10, 2025, [JsValue.num 5, JsValue.num 5], [5, 5], 2⟩).hiddenValue).Nodup ∧
    ¬ ((toggleDay "w" 3 "w"
        ⟨10, 2025, [JsValue.num 5, JsValue.num 5], [5, 5], 2⟩).hiddenValue).Sorted (· < ·) := by
  refine ⟨by decide, ?_, ?_⟩ <;> rw [show (toggleDay "w" 3 "w"
      ⟨10, 2025, [JsValue.num 5, JsValue.num 5], [5, 5], 2⟩).hiddenValue = [3, 5, 5]
      from by decide] <;> decide

/-- C1 (amended): after every mutating operation of the day picker and for
every prior selected content, the array serialized into the hidden field
is non-decreasing with all elements integers of 1..31; it is strictly
ascending and duplicate-free whenever the prior numeric content was
duplicate-free (in particular after the bulk operations, whose rebuilt
selection is always duplicate-free). A toggle over a prior content with
duplicates, as loaded verbatim from the hidden field, keeps them. -/
theorem c1_amended_serialized_sorted (wid : String) (s : CalState) (d : Int)
    (hd1 : 1 ≤ d) (hd2 : d ≤ 31) (hm : s.currentMonth ≠ 0) (hy : s.currentYear ≠ 0) :
    ((toggleDay wid d wid s).hiddenValue.Sorted (· ≤ ·) ∧
      (∀ n ∈ (toggleDay wid d wid s).hiddenValue, 1 ≤ n ∧ n ≤ 31) ∧
      ((numsOf s.selectedDays).Nodup →
        (toggleDay wid d wid s).hiddenValue.Sorted (· < ·))) ∧
    ((selectAllDays wid wid s).hiddenValue.Sorted (· < ·) ∧
      ∀ n ∈ (selectAllDays wid wid s).hiddenValue, 1 ≤ n ∧ n ≤ 31) ∧
    ((clearAllDays wid wid s).hiddenValue.Sorted (· < ·) ∧
      ∀ n ∈ (clearAllDays wid wid s).hiddenValue, 1 ≤ n ∧ n ≤ 31) ∧
    ((selectWeekdays wid wid s).hiddenValue.Sorted (· < ·) ∧
      ∀ n ∈ (selectWeekdays wid wid s).hiddenValue, 1 ≤ n ∧ n ≤ 31) := by
  have htog : (toggleDay wid d wid s).hiddenValue =
      cleanDays (if containsNum d s.selectedDays then eraseNum d s.selectedDays
                 else s.selectedDays ++ [JsValue.num d]) := by
    rw [toggleDay_core wid d s hd1 hd2]
    rfl
  have hall : (selectAllDays wid wid s).hiddenValue =
      cleanDays ((allDaysList s.currentYear s.currentMonth).map JsValue.num) := by
    unfold selectAllDays
    rw [if_neg (by simp), if_neg (by simp [hm, hy])]
    rfl
  have hclear : (clearAllDays wid wid s).hiddenValue = cleanDays [] := by
    unfold clearAllDays
    rw [if_neg (by simp)]
    rfl
  have hweek : (selectWeekdays wid wid s).hiddenValue =
      cleanDays ((weekdaysList s.currentYear s.currentMonth).map JsValue.num) := by
    unfold selectWeekdays
    rw [if_neg (by simp), if_neg (by simp [hm, hy])]
    rfl
  refine ⟨⟨?_, ?_, ?_⟩, ⟨?_, ?_⟩, ⟨?_, ?_⟩, ⟨?_, ?_⟩⟩
  · rw [htog]
    exact cleanDays_sorted_le _
  · rw [htog]
    intro n hn
    exact ((mem_cleanDays n _).mp hn).2
  · intro hnd
    rw [htog]
    apply cleanDays_sorted_lt
    by_cases hc : containsNum d s.selectedDays = true
    · rw [if_pos hc]
      exact hnd.sublist (numsOf_eraseNum_sublist d _)
    · rw [if_neg hc, numsOf_append, show numsOf [JsValue.num d] = [d] from rfl]
      have hd : d ∉ numsOf s.selectedDays := fun hmem =>
        hc ((containsNum_iff d _).mpr hmem)
      simp [List.nodup_append, hnd, hd]
  · rw [hall]
    exact cleanDays_sorted_lt _ (by rw [numsOf_map_num]; exact allDaysList_nodup _ _)
  · rw [hall]
    intro n hn
    exact ((mem_cleanDays n _).mp hn).2
  · rw [hclear]
    exact List.sorted_nil
  · rw [hclear]
    intro n hn
    exact absurd hn (by simp [cleanDays, numsOf])
  · rw [hweek]
    exact cleanDays_sorted_lt _ (by rw [numsOf_map_num]; exact weekdaysList_nodup _ _)
  · rw [hweek]
    intro n hn
    exact ((mem_cleanDays n _).mp hn).2

/-- Witness for C1 (amended) at a concrete state with one selected day. -/
theorem c1_amended_serialized_sorted_witness :
    (toggleDay "w" 7 "w" ⟨10, 2025, [JsValue.num 5], [5], 1⟩).hiddenValue.Sorted (· ≤ ·) ∧
    (toggleDay "w" 7 "w" ⟨10, 2025, [JsValue.num 5], [5], 1⟩).hiddenValue.Sorted (· < ·) ∧
    (selectAllDays "w" "w" ⟨10, 2025, [JsValue.num 5], [5], 1⟩).hiddenValue.Sorted (· < ·) ∧
    (clearAllDays "w" "w" ⟨10, 2025, [JsValue.num 5], [5], 1⟩).hiddenValue.Sorted (· < ·) ∧
    (selectWeekdays "w" "w" ⟨10, 2025, [JsValue.num 5], [5], 1⟩).hiddenValue.Sorted (· < ·) := by
  have h := c1_amended_serialized_sorted "w" ⟨10, 2025, [JsValue.num 5], [5], 1⟩ 7
    (by decide) (by decide) (by decide) (by decide)
  exact ⟨h.1.1, h.1.2.2 (by decide), h.2.1.1, h.2.2.1.1, h.2.2.2.1⟩

/-- C5 counterexample: the claim quantifies over every current selected
set, including one loaded from the hidden field. Load the content holding
5 twice: the first toggle of day 5 removes one occurrence (splice removes
a single element at indexOf), the second removes the other, leaving the
empty selection, which differs as a set from the original (5 was
selected). -/
theorem c5_toggle_twice_counterexample :
    (toggleDay "w" 5 "w" (toggleDay "w" 5 "w"
        ⟨10, 2025, [JsValue.num 5, JsValue.num 5], [5, 5], 2⟩)).selectedDays = [] ∧
    (toggleDay "w" 5 "w" (toggleDay "w" 5 "w"
        ⟨10, 2025, [JsValue.num 5, JsValue.num 5], [5, 5], 2⟩)).hiddenValue = [] ∧
    JsValue.num 5 ∈
      (⟨10, 2025, [JsValue.num 5, JsValue.num 5], [5, 5], 2⟩ : CalState).selectedDays := by
  refine ⟨rfl, by decide, by simp⟩

/-- C5 (amended): on every selected content that is a duplicate-free array
of integers of 1..31 — every state a prior mutating operation can write —
toggling a day of 1..31 twice with the matching widget id restores the
original selected set (membership is unchanged; the array is resorted). -/
theorem c5_amended_toggle_involutive (wid : String) (s : CalState) (ys : List Int) (d : Int)
    (hsel : s.selectedDays = ys.map JsValue.num)
    (hnd : ys.Nodup) (hrange : ∀ y ∈ ys, 1 ≤ y ∧ y ≤ 31)
    (hd1 : 1 ≤ d) (hd2 : d ≤ 31) :
    ∀ v, v ∈ (toggleDay wid d wid (toggleDay wid d wid s)).selectedDays ↔
      v ∈ s.selectedDays := by
  obtain ⟨zs, hz1, hz2, hz3, hz4⟩ := toggle_step_nodup wid d s ys hsel hnd hrange hd1 hd2
  obtain ⟨ws, hw1, hw2, hw3, hw4⟩ :=
    toggle_step_nodup wid d (toggleDay wid d wid s) zs hz1 hz2 hz3 hd1 hd2
  have hkey : ∀ n : Int, n ∈ ws ↔ n ∈ ys := by
    intro n
    rw [hw4 n]
    by_cases hc : d ∈ ys
    · have hdz : d ∉ zs := by
        rw [hz4 d]
        simp [hc]
      constructor
      · rintro (⟨hzs, hne⟩ | ⟨rfl, _⟩)
        · rcases (hz4 n).mp hzs with ⟨hy, _⟩ | ⟨rfl, hni⟩
          · exact hy
          · exact absurd hc hni
        · exact hc
      · intro hy
        by_cases hnd2 : n = d
        · subst hnd2
          exact Or.inr ⟨rfl, hdz⟩
        · refine Or.inl ⟨?_, hnd2⟩
          rw [hz4 n]
          exact Or.inl ⟨hy, hnd2⟩
    · have hdz : d ∈ zs := by
        rw [hz4 d]
        exact Or.inr ⟨rfl, hc⟩
      constructor
      · rintro (⟨hzs, hne⟩ | ⟨rfl, habs⟩)
        · rcases (hz4 n).mp hzs with ⟨hy, _⟩ | ⟨rfl, _⟩
          · exact hy
          · exact absurd rfl hne
        · exact absurd hdz habs
      · intro hy
        have hne : n ≠ d := fun h => hc (h ▸ hy)
        refine Or.inl ⟨?_, hne⟩
        rw [hz4 n]
        exact Or.inl ⟨hy, hne⟩
  intro v
  rw [hw1, hsel]
  simp only [List.mem_map]
  constructor
  · rintro ⟨n, hn, rfl⟩
    exact ⟨n, (hkey n).mp hn, rfl⟩
  · rintro ⟨n, hn, rfl⟩
    exact ⟨n, (hkey n).mpr hn, rfl⟩

/-- Witness for C5 (amended): toggling 7 twice on the selection holding 5
leaves 5 selected. -/
theorem c5_amended_toggle_involutive_witness :
    JsValue.num 5 ∈ (toggleDay "w" 7 "w" (toggleDay "w" 7 "w"
        ⟨10, 2025, [JsValue.num 5], [5], 1⟩)).selectedDays ↔
      JsValue.num 5 ∈ (⟨10, 2025, [JsValue.num 5], [5], 1⟩ : CalState).selectedDays :=
  c5_amended_toggle_involutive "w" ⟨10, 2025, [JsValue.num 5], [5], 1⟩ [5] 7
    rfl (by decide) (by decide) (by decide) (by decide) (JsValue.num 5)

/-- C6: for the month and year currently bound to the picker, the select
weekdays operation rebuilds the selected set (and the serialized hidden
array) as exactly the days of that month whose ISO weekday is 1 to 5,
Monday to Friday; running it again on its own result changes nothing. -/
theorem c6_select_weekdays_exact_idempotent (wid : String) (s : CalState)
    (hm : s.currentMonth ≠ 0) (hy : s.currentYear ≠ 0) :
    (selectWeekdays wid wid s).hiddenValue =
      weekdaysList s.currentYear s.currentMonth ∧
    (∀ d : Nat, (d : Int) ∈ (selectWeekdays wid wid s).hiddenValue ↔
      (1 ≤ d ∧ d ≤ daysInMonth s.currentYear s.currentMonth ∧
       1 ≤ isoWeekday s.currentYear s.currentMonth d ∧
       isoWeekday s.currentYear s.currentMonth d ≤ 5)) ∧
    (selectWeekdays wid wid s).selectedDays =
      ((selectWeekdays wid wid s).hiddenValue).map JsValue.num ∧
    selectWeekdays wid wid (selectWeekdays wid wid s) = selectWeekdays wid wid s := by
  have hn := selectWeekdays_normal wid s hm hy
  refine ⟨by rw [hn], ?_, by rw [hn], ?_⟩
  · intro d
    rw [hn]
    dsimp only
    rw [mem_weekdaysList]
    constructor
    · rintro ⟨h1, h2, h3, h4⟩
      exact ⟨h1, h2, ((isoWeekday_range_iff _ _ d).mpr ⟨h3, h4⟩).1,
        ((isoWeekday_range_iff _ _ d).mpr ⟨h3, h4⟩).2⟩
    · rintro ⟨h1, h2, h3, h4⟩
      exact ⟨h1, h2, ((isoWeekday_range_iff _ _ d).mp ⟨h3, h4⟩).1,
        ((isoWeekday_range_iff _ _ d).mp ⟨h3, h4⟩).2⟩
  · have hn2 := selectWeekdays_normal wid
      ⟨s.currentMonth, s.currentYear,
       (weekdaysList s.currentYear s.currentMonth).map JsValue.num,
       weekdaysList s.currentYear s.currentMonth,
       (weekdaysList s.currentYear s.currentMonth).length⟩ hm hy
    rw [hn, hn2]

/-- Witness for C6 at October 2025 and day 6 (a Monday). -/
theorem c6_select_weekdays_witness :
    (selectWeekdays "w" "w" ⟨10, 2025, [], [], 0⟩).hiddenValue = weekdaysList 2025 10 ∧
    (((6 : Nat) : Int) ∈ (selectWeekdays "w" "w" ⟨10, 2025, [], [], 0⟩).hiddenValue ↔
      (1 ≤ (6 : Nat) ∧ (6 : Nat) ≤ daysInMonth 2025 10 ∧
       1 ≤ isoWeekday 2025 10 6 ∧ isoWeekday 2025 10 6 ≤ 5)) ∧
    selectWeekdays "w" "w" (selectWeekdays "w" "w" ⟨10, 2025, [], [], 0⟩) =
      selectWeekdays "w" "w" ⟨10, 2025, [], [], 0⟩ :=
  ⟨(c6_select_weekdays_exact_idempotent "w" ⟨10, 2025, [], [], 0⟩
      (by decide) (by decide)).1,
   (c6_select_weekdays_exact_idempotent "w" ⟨10, 2025, [], [], 0⟩
      (by decide) (by decide)).2.1 6,
   (c6_select_weekdays_exact_idempotent "w" ⟨10, 2025, [], [], 0⟩
      (by decide) (by decide)).2.2.2⟩
